import Mathlib

/-!
Shallow embedding of `pydevd_attach_to_process/add_code_to_python_process.py`.

The module injects Python code into a foreign process.  On Windows it opens
the target process, checks the word width, injects a helper dll, resolves the
entry point, allocates a code buffer and a result buffer in the target,
builds a small machine-code trampoline with `GenShellCodeHelper` and runs it
on an injected thread.  On Linux it shells out to gdb.

Pure parts (the shellcode helper, address packing, the retry loop) are
embedded directly.  Effectful parts (the winappdbg process API) are embedded
by passing an environment that fixes the outcome of every foreign call and
by recording the foreign interactions the driver performs as a trace of
events.  Exceptions become `Except`/`Option` results.
-/

namespace AttachToProcess

/-- Little-endian bytes of a natural number, fixed width `n`
(the semantics of `struct.pack` for an in-range value). -/
def leBytes : Nat → Nat → List Nat
  | 0, _ => []
  | n + 1, k => k % 256 :: leBytes n (k / 256)

/-- Little-endian decoding of a byte list (unsigned). -/
def leDecode : List Nat → Nat
  | [] => 0
  | b :: bs => b + 256 * leDecode bs

/-- Little-endian decoding of a byte list, two's complement signed at the
list's own width (the semantics of `struct.unpack` with a signed format). -/
def leDecodeSigned (bs : List Nat) : Int :=
  let u := leDecode bs
  if u < 2 ^ (8 * bs.length - 1) then (u : Int) else (u : Int) - 2 ^ (8 * bs.length)

theorem leBytes_length (n k : Nat) : (leBytes n k).length = n := by
  induction n generalizing k with
  | zero => rfl
  | succ n ih => simp [leBytes, ih]

theorem leDecode_leBytes (n k : Nat) (h : k < 256 ^ n) :
    leDecode (leBytes n k) = k := by
  induction n generalizing k with
  | zero =>
    simp [pow_zero] at h
    simp [h, leBytes, leDecode]
  | succ n ih =>
    have hdiv : k / 256 < 256 ^ n := by
      rw [Nat.div_lt_iff_lt_mul (by norm_num : 0 < 256)]
      calc k < 256 ^ (n + 1) := h
        _ = 256 ^ n * 256 := by ring
    simp only [leBytes, leDecode, ih (k / 256) hdiv]
    omega

/-- The 32-bit translation table of `GenShellCodeHelper.__init__`
(mnemonic → encoding), as an association list like the Python dict. -/
def translations32 : List (String × List Nat) :=
  [("push esi", [0x56]),
   ("push eax", [0x50]),
   ("push ebp", [0x55]),
   ("push ebx", [0x53]),

   ("pop esi", [0x5E]),
   ("pop eax", [0x58]),
   ("pop ebp", [0x5D]),
   ("pop ebx", [0x5B]),

   ("mov esi", [0xBE]),
   ("mov eax", [0xB8]),
   ("mov ebp", [0xBD]),
   ("mov ebx", [0xBB]),

   ("call ebp", [0xFF, 0xD5]),
   ("call eax", [0xFF, 0xD0]),
   ("call ebx", [0xFF, 0xD3]),

   ("mov ebx,eax", [0x89, 0xC3]),
   ("mov eax,ebx", [0x89, 0xD8]),
   ("mov ebp,esp", [0x89, 0xE5]),
   ("mov esp,ebp", [0x89, 0xEC]),
   ("push dword", [0x68]),

   ("mov ebp,eax", [0x89, 0xC5]),
   ("mov eax,ebp", [0x89, 0xE8]),

   ("ret", [0xC3])]

/-- The 64-bit translation table of `GenShellCodeHelper.__init__`. -/
def translations64 : List (String × List Nat) :=
  [("push rsi", [0x56]),
   ("push rax", [0x50]),
   ("push rbp", [0x55]),
   ("push rbx", [0x53]),
   ("push rsp", [0x54]),
   ("push rdi", [0x57]),

   ("pop rsi", [0x5E]),
   ("pop rax", [0x58]),
   ("pop rbp", [0x5D]),
   ("pop rbx", [0x5B]),
   ("pop rsp", [0x5C]),
   ("pop rdi", [0x5F]),

   ("mov rsi", [0x48, 0xBE]),
   ("mov rax", [0x48, 0xB8]),
   ("mov rbp", [0x48, 0xBD]),
   ("mov rbx", [0x48, 0xBB]),
   ("mov rdi", [0x48, 0xBF]),
   ("mov rcx", [0x48, 0xB9]),
   ("mov rdx", [0x48, 0xBA]),

   ("call rbp", [0xFF, 0xD5]),
   ("call rax", [0xFF, 0xD0]),
   ("call rbx", [0xFF, 0xD3]),

   ("mov rbx,rax", [0x48, 0x89, 0xC3]),
   ("mov rax,rbx", [0x48, 0x89, 0xD8]),
   ("mov rbp,rsp", [0x48, 0x89, 0xE5]),
   ("mov rsp,rbp", [0x48, 0x89, 0xEC]),
   ("mov rcx,rbp", [0x48, 0x89, 0xE9]),

   ("mov rbp,rax", [0x48, 0x89, 0xC5]),
   ("mov rax,rbp", [0x48, 0x89, 0xE8]),

   ("mov rdi,rbp", [0x48, 0x89, 0xEF]),

   ("ret", [0xC3])]

/-- `GenShellCodeHelper`: width flag and the list of emitted chunks
(each appended element of the Python `self._code` list). -/
structure GenShellCodeHelper where
  is_64 : Bool
  emitted : List (List Nat)
deriving DecidableEq

namespace GenShellCodeHelper

/-- `GenShellCodeHelper(is_64)`. -/
def init (is_64 : Bool) : GenShellCodeHelper := ⟨is_64, []⟩

/-- The width-specific translation dict chosen in `__init__`. -/
def translations (h : GenShellCodeHelper) : List (String × List Nat) :=
  if h.is_64 then translations64 else translations32

/-- `translate`: dict lookup; a missing mnemonic raises `KeyError`,
modelled as `none`. -/
def translate (h : GenShellCodeHelper) (code : String) : Option (List Nat) :=
  h.translations.lookup code

/-- `self._code.append(chunk)`. -/
def appendChunk (h : GenShellCodeHelper) (c : List Nat) : GenShellCodeHelper :=
  ⟨h.is_64, h.emitted ++ [c]⟩

/-- `push(register)` (the paired automatic pop of the `with` block is emitted
by the caller at block exit). -/
def push (h : GenShellCodeHelper) (register : String) : Option GenShellCodeHelper :=
  (h.translate ("push " ++ register)).map h.appendChunk

/-- `pop(register)`. -/
def pop (h : GenShellCodeHelper) (register : String) : Option GenShellCodeHelper :=
  (h.translate ("pop " ++ register)).map h.appendChunk

/-- `push_addr(addr)`: emits `push dword` then the packed address bytes. -/
def push_addr (h : GenShellCodeHelper) (addr : List Nat) : Option GenShellCodeHelper :=
  (h.translate "push dword").map (fun c => (h.appendChunk c).appendChunk addr)

/-- `mov_to_register_addr(register, addr)`. -/
def mov_to_register_addr (h : GenShellCodeHelper) (register : String) (addr : List Nat) :
    Option GenShellCodeHelper :=
  (h.translate ("mov " ++ register)).map (fun c => (h.appendChunk c).appendChunk addr)

/-- `mov_register_to_from(register_to, register_from)`. -/
def mov_register_to_from (h : GenShellCodeHelper) (register_to register_from : String) :
    Option GenShellCodeHelper :=
  (h.translate ("mov " ++ register_to ++ "," ++ register_from)).map h.appendChunk

/-- `call(register)`. -/
def call (h : GenShellCodeHelper) (register : String) : Option GenShellCodeHelper :=
  (h.translate ("call " ++ register)).map h.appendChunk

/-- `preserve_stack` start: `mov ebp,esp` (the paired restore is emitted by
the caller at block exit). -/
def preserve_stack (h : GenShellCodeHelper) : Option GenShellCodeHelper :=
  h.mov_register_to_from "ebp" "esp"

/-- `restore_stack`: `mov esp,ebp`. -/
def restore_stack (h : GenShellCodeHelper) : Option GenShellCodeHelper :=
  h.mov_register_to_from "esp" "ebp"

/-- `ret()`. -/
def ret (h : GenShellCodeHelper) : Option GenShellCodeHelper :=
  (h.translate "ret").map h.appendChunk

/-- `get_code()`: joins all emitted chunks into one byte string. -/
def get_code (h : GenShellCodeHelper) : List Nat :=
  h.emitted.flatten

/-- `pack_address(address)`: `struct.pack('<q', address)` on a 64-bit helper
(signed 8-byte), `struct.pack('<L', address)` on a 32-bit helper (unsigned
4-byte); an out-of-range value raises `struct.error`, modelled as `none`. -/
def pack_address (h : GenShellCodeHelper) (address : Int) : Option (List Nat) :=
  if h.is_64 then
    if -(2 ^ 63) ≤ address ∧ address < 2 ^ 63 then
      some (leBytes 8 ((address % 2 ^ 64).toNat))
    else none
  else
    if 0 ≤ address ∧ address < 2 ^ 32 then
      some (leBytes 4 address.toNat)
    else none

end GenShellCodeHelper

/-- One `GenShellCodeHelper` method call of the trampoline build, named
after the method it invokes (`push_addr` and `mov_to_register_addr` carry
the already-packed address bytes, as at their call sites). -/
inductive AsmOp
  | push (register : String)
  | pop (register : String)
  | push_addr (addr : List Nat)
  | mov_to_register_addr (register : String) (addr : List Nat)
  | mov_register_to_from (register_to register_from : String)
  | call (register : String)
  | ret
deriving DecidableEq

/-- Perform one method call on the helper. -/
def GenShellCodeHelper.emit (h : GenShellCodeHelper) : AsmOp → Option GenShellCodeHelper
  | .push r => h.push r
  | .pop r => h.pop r
  | .push_addr a => h.push_addr a
  | .mov_to_register_addr r a => h.mov_to_register_addr r a
  | .mov_register_to_from rt rf => h.mov_register_to_from rt rf
  | .call r => h.call r
  | .ret => h.ret

/-- Perform a sequence of method calls; the first raised `KeyError`
(`none`) aborts the build. -/
def GenShellCodeHelper.emitAll (h : GenShellCodeHelper) : List AsmOp → Option GenShellCodeHelper
  | [] => some h
  | op :: ops =>
    match h.emit op with
    | none => none
    | some h2 => h2.emitAll ops

/-- The 64-bit method-call sequence of `run_python_code_windows` (the nested
`with helper.push(...)` blocks unfolded in execution order, each block's
automatic pop at its exit, then `helper.ret()`), over the packed code
buffer, result buffer and entry point addresses. -/
def trampolineOps64 (wCode wRet wFunc : List Nat) : List AsmOp :=
  [.push "rdi",
   .push "rsp",
   .push "rbp",
   .push "rbx",
   .push "rdi",
   .mov_to_register_addr "rcx" wCode,
   .mov_to_register_addr "rdx" wRet,
   .mov_to_register_addr "rbx" wFunc,
   .call "rbx",
   .pop "rdi",
   .pop "rbx",
   .pop "rbp",
   .pop "rsp",
   .pop "rdi",
   .ret]

/-- The 32-bit method-call sequence: `preserve_stack` opens with
`mov ebp,esp` and its block exit emits `mov esp,ebp` (`restore_stack`);
the parameters are pushed return-buffer first, code-buffer second. -/
def trampolineOps32 (wCode wRet wFunc : List Nat) : List AsmOp :=
  [.push "eax",
   .push "ebp",
   .push "ebx",
   .mov_register_to_from "ebp" "esp",
   .push_addr wRet,
   .push_addr wCode,
   .mov_to_register_addr "ebx" wFunc,
   .call "ebx",
   .mov_register_to_from "esp" "ebp",
   .pop "ebx",
   .pop "ebp",
   .pop "eax",
   .ret]

/-- The trampoline built by `run_python_code_windows`: a fresh
`GenShellCodeHelper(is_64)`, the three addresses packed by the helper, the
width's method-call sequence performed in order.  Returns the emitted chunk
list; `none` models a `KeyError` or `struct.error` escaping the build. -/
def buildTrampoline (is_64 : Bool) (code_address return_code_address attach_func : Int) :
    Option (List (List Nat)) := do
  let helper := GenShellCodeHelper.init is_64
  let wCode ← helper.pack_address code_address
  let wRet ← helper.pack_address return_code_address
  let wFunc ← helper.pack_address attach_func
  let ops := if is_64 then trampolineOps64 wCode wRet wFunc else trampolineOps32 wCode wRet wFunc
  let h ← helper.emitAll ops
  return h.emitted

/-- Foreign-process interactions of the drivers, in the order performed. -/
inductive Event
  | openProcess
  | resolveAttempt (label : String) (attempt : Nat)
  | scanModules
  | sleep (seconds : Nat)
  | injectDll
  | malloc (size : Nat) (result : Option Nat)
  | write (addr : Nat)
  | writeInt (addr : Nat) (value : Int)
  | injectCode (pInjectedMemory : Option Nat)
  | threadWait
  | readInt (addr : Nat)
  | free (addr : Nat)
  | spawn (cmd : String)
deriving DecidableEq

/-- Exceptions the drivers can raise. -/
inductive Err
  | assertionError
  | archMismatch
  | dllNotFound
  | resolveError
  | apiError
  | structError
deriving DecidableEq

/-- One pass of the `for i in range(3)` loop of `resolve_label`.  `f i` is
the outcome of `process.resolve_label(label)` on attempt `i` (`none` for an
exception); a zero address fails the `assert address`.  On failure the loop
rescans modules (that call's own exceptions are swallowed), re-raises when
`i == 2`, otherwise sleeps 2 seconds and goes to the next attempt. -/
def resolveLoop (f : Nat → Option Nat) (label : String) :
    List Nat → List Event × Option Nat
  | [] => ([], none)
  | i :: rest =>
    let fail : List Event × Option Nat :=
      if i = 2 then ([Event.resolveAttempt label i, Event.scanModules], none)
      else
        let next := resolveLoop f label rest
        (Event.resolveAttempt label i :: Event.scanModules :: Event.sleep 2 :: next.1,
         next.2)
    match f i with
    | some address => if address = 0 then fail else ([Event.resolveAttempt label i], some address)
    | none => fail

/-- `resolve_label(process, label)`: the retry loop over `range(3)`. -/
def resolve_label (f : Nat → Option Nat) (label : String) : List Event × Option Nat :=
  resolveLoop f label [0, 1, 2]

/-- Outcomes of the winappdbg calls `run_python_code_windows` makes;
`none` / `false` means that call raises. -/
structure WinEnv where
  bits : Nat
  pythonIs64 : Bool
  resolveEnsure : Nat → Option Nat
  dllExists : Bool
  injectDllOk : Bool
  scanOk : Bool
  resolveAttach : Nat → Option Nat
  mallocCode : Option Nat
  writeOk : Bool
  mallocRet : Option Nat
  writeIntOk : Bool
  injectCodeRes : Option Nat
  waitOk : Bool
  readIntRes : Option Int

/-- `run_python_code_windows(pid, python_code, connect_debugger_tracing)`:
the driver step for step, recording every foreign interaction in a trace.
An `Except.error` result models a raised exception. -/
def run_python_code_windows (env : WinEnv) (python_code : List Char)
    (connect_debugger_tracing : Bool) : List Event × Except Err Int :=
  if '\'' ∈ python_code then ([], .error .assertionError) else
  let t0 : List Event := [.openProcess]
  let is_64 : Bool := env.bits == 64
  if is_64 ≠ env.pythonIs64 then (t0, .error .archMismatch) else
  match resolve_label env.resolveEnsure "PyGILState_Ensure" with
  | (t1, none) => (t0 ++ t1, .error .resolveError)
  | (t1, some ensure_addr) =>
  if ensure_addr = 0 then (t0 ++ t1, .error .assertionError) else
  if ¬ env.dllExists then (t0 ++ t1, .error .dllNotFound) else
  let t2 := t0 ++ t1 ++ [.injectDll]
  if ¬ env.injectDllOk then (t2, .error .apiError) else
  let t3 := t2 ++ [.scanModules]
  if ¬ env.scanOk then (t3, .error .apiError) else
  match resolve_label env.resolveAttach "AttachAndRunPythonCode" with
  | (t4, none) => (t3 ++ t4, .error .resolveError)
  | (t4, some attach_func) =>
  if attach_func = 0 then (t3 ++ t4, .error .assertionError) else
  let t5 := t3 ++ t4 ++ [.malloc python_code.length env.mallocCode]
  match env.mallocCode with
  | none => (t5, .error .apiError)
  | some code_address =>
  if code_address = 0 then (t5, .error .assertionError) else
  let t6 := t5 ++ [.write code_address]
  if ¬ env.writeOk then (t6, .error .apiError) else
  let t7 := t6 ++ [.malloc 4 env.mallocRet]
  match env.mallocRet with
  | none => (t7, .error .apiError)
  | some return_code_address =>
  if return_code_address = 0 then (t7, .error .assertionError) else
  let startup_info : Int := if connect_debugger_tracing then 2 else 0
  let t8 := t7 ++ [.writeInt return_code_address startup_info]
  if ¬ env.writeIntOk then (t8, .error .apiError) else
  match buildTrampoline is_64 code_address return_code_address attach_func with
  | none => (t8, .error .structError)
  | some _code =>
  let t9 := t8 ++ [.injectCode env.injectCodeRes]
  match env.injectCodeRes with
  | none => (t9, .error .apiError)
  | some pInjectedMemory =>
  let t10 := t9 ++ [.threadWait]
  if ¬ env.waitOk then (t10, .error .apiError) else
  let t11 := t10 ++ [.readInt return_code_address]
  match env.readIntRes with
  | none => (t11, .error .apiError)
  | some return_code =>
  (t11 ++ [.free pInjectedMemory, .free code_address, .free return_code_address],
   .ok return_code)

/-- Outcome of the gdb subprocess `run_python_code_linux` spawns. -/
structure LinuxEnv where
  out : String
  err : String

/-- The gdb `-eval-command` string of `run_python_code_linux`: the
multi-line template with the code substituted, then `\r\n`, `\r` and `\n`
removed. -/
def gdbCmds (python_code : List Char) : String :=
  let cmds := "-eval-command='call PyGILState_Ensure()'\n -eval-command='call PyRun_SimpleString(\"" ++ String.mk python_code ++ "\")'\n -eval-command='call PyGILState_Release($1)'"
  ((cmds.replace "\r\n" "").replace "\r" "").replace "\n" ""

/-- `run_python_code_linux(pid, python_code, ...)`: asserts the single-quote
precondition, builds the gdb command line and spawns it. -/
def run_python_code_linux (env : LinuxEnv) (pid : Nat) (python_code : List Char) :
    List Event × Except Err (String × String) :=
  if '\'' ∈ python_code then ([], .error .assertionError) else
  let cmd := "gdb -p " ++ toString pid ++ " -batch " ++ gdbCmds python_code
  ([.spawn cmd], .ok (env.out, env.err))

/-! ### Facts about address packing -/

theorem pack_address_64 (h : GenShellCodeHelper) (A : Int) (h64 : h.is_64 = true)
    (h0 : 0 ≤ A) (h1 : A < 2 ^ 63) :
    h.pack_address A = some (leBytes 8 A.toNat) := by
  have hmod : A % 2 ^ 64 = A := Int.emod_eq_of_lt h0 (by omega)
  unfold GenShellCodeHelper.pack_address
  rw [h64, if_pos rfl, if_pos ⟨by omega, h1⟩, hmod]

theorem pack_address_32 (h : GenShellCodeHelper) (A : Int) (h32 : h.is_64 = false)
    (h0 : 0 ≤ A) (h1 : A < 2 ^ 32) :
    h.pack_address A = some (leBytes 4 A.toNat) := by
  unfold GenShellCodeHelper.pack_address
  rw [h32]
  simp only [Bool.false_eq_true, if_false]
  rw [if_pos ⟨h0, h1⟩]

/-- C10: `pack_address` is partial at the upper half of each width's address
space: a 64-bit helper packs with the signed 8-byte format, so every address
in `[2^63, 2^64)` raises `struct.error` instead of returning bytes; a 32-bit
helper packs with the unsigned 4-byte format, so every address `≥ 2^32` and
every negative address raises; every in-range address yields exactly 8
resp. 4 bytes. -/
theorem pack_address_partiality (h : GenShellCodeHelper) (A : Int) :
    (h.is_64 = true → 2 ^ 63 ≤ A → A < 2 ^ 64 → h.pack_address A = none) ∧
    (h.is_64 = false → 2 ^ 32 ≤ A → h.pack_address A = none) ∧
    (h.is_64 = false → A < 0 → h.pack_address A = none) ∧
    (h.is_64 = true → -(2 ^ 63) ≤ A → A < 2 ^ 63 →
      ∃ w, h.pack_address A = some w ∧ w.length = 8) ∧
    (h.is_64 = false → 0 ≤ A → A < 2 ^ 32 →
      ∃ w, h.pack_address A = some w ∧ w.length = 4) := by
  unfold GenShellCodeHelper.pack_address
  refine ⟨fun h64 hA hA2 => ?_, fun h32 hA => ?_, fun h32 hA => ?_,
    fun h64 hA hA2 => ?_, fun h32 hA hA2 => ?_⟩
  · rw [h64, if_pos rfl, if_neg (by omega)]
  · rw [h32]
    simp only [Bool.false_eq_true, if_false]
    rw [if_neg (by omega)]
  · rw [h32]
    simp only [Bool.false_eq_true, if_false]
    rw [if_neg (by omega)]
  · rw [h64, if_pos rfl, if_pos ⟨hA, hA2⟩]
    exact ⟨_, rfl, leBytes_length _ _⟩
  · rw [h32]
    simp only [Bool.false_eq_true, if_false]
    rw [if_pos ⟨hA, hA2⟩]
    exact ⟨_, rfl, leBytes_length _ _⟩

/-- C10 witness: the partiality facts applied at the concrete addresses
`2^63` (64-bit, raises) and `5` (both widths, in range). -/
theorem pack_address_partiality_witness :
    (GenShellCodeHelper.init true).pack_address (2 ^ 63) = none ∧
    (GenShellCodeHelper.init false).pack_address (2 ^ 32) = none ∧
    (GenShellCodeHelper.init false).pack_address (-1) = none ∧
    (∃ w, (GenShellCodeHelper.init true).pack_address 5 = some w ∧ w.length = 8) ∧
    ∃ w, (GenShellCodeHelper.init false).pack_address 5 = some w ∧ w.length = 4 :=
  ⟨(pack_address_partiality (GenShellCodeHelper.init true) (2 ^ 63)).1 rfl
      (by norm_num) (by norm_num),
   (pack_address_partiality (GenShellCodeHelper.init false) (2 ^ 32)).2.1 rfl (by norm_num),
   (pack_address_partiality (GenShellCodeHelper.init false) (-1)).2.2.1 rfl (by norm_num),
   (pack_address_partiality (GenShellCodeHelper.init true) 5).2.2.2.1 rfl
      (by norm_num) (by norm_num),
   (pack_address_partiality (GenShellCodeHelper.init false) 5).2.2.2.2 rfl
      (by norm_num) (by norm_num)⟩

/-- C3 fails as stated over all addresses: at `A = 2^63` a 64-bit helper
raises `struct.error` (the signed `<q` format cannot represent it) instead
of producing an 8-byte encoding. -/
theorem pack_address_fails_at_two_pow_63 :
    (GenShellCodeHelper.init true).pack_address (2 ^ 63) = none := by
  unfold GenShellCodeHelper.pack_address GenShellCodeHelper.init
  rw [if_pos rfl, if_neg (by norm_num)]

/-- C3 (amended): for every address within the packing format's range
(`0 ≤ A < 2^63` on a 64-bit helper, `0 ≤ A < 2^32` on a 32-bit helper),
`pack_address` returns a little-endian encoding of exactly 8 resp. 4 bytes,
and decoding against the same width (signed for 64-bit `<q`, unsigned for
32-bit `<L`) reconstructs `A` exactly.  The claim's "for all addresses" had
to be restricted to the representable range: see the counterexample at
`2^63`. -/
theorem pack_address_roundtrip (h : GenShellCodeHelper) (A : Int) :
    (h.is_64 = true → 0 ≤ A → A < 2 ^ 63 →
      ∃ w, h.pack_address A = some w ∧ w.length = 8 ∧ leDecodeSigned w = A) ∧
    (h.is_64 = false → 0 ≤ A → A < 2 ^ 32 →
      ∃ w, h.pack_address A = some w ∧ w.length = 4 ∧ (leDecode w : Int) = A) := by
  constructor
  · intro h64 h0 h1
    refine ⟨leBytes 8 A.toNat, pack_address_64 h A h64 h0 h1, leBytes_length _ _, ?_⟩
    have htn : A.toNat < 2 ^ 63 := by omega
    have hdec : leDecode (leBytes 8 A.toNat) = A.toNat :=
      leDecode_leBytes 8 A.toNat (by norm_num; omega)
    unfold leDecodeSigned
    rw [leBytes_length, hdec]
    simp only [show 8 * 8 - 1 = 63 from rfl]
    rw [if_pos htn]
    omega
  · intro h32 h0 h1
    refine ⟨leBytes 4 A.toNat, pack_address_32 h A h32 h0 h1, leBytes_length _ _, ?_⟩
    have hdec : leDecode (leBytes 4 A.toNat) = A.toNat :=
      leDecode_leBytes 4 A.toNat (by norm_num; omega)
    rw [hdec]
    omega

/-- C3 witness: round-trip evaluated at the concrete address `258` on both
widths. -/
theorem pack_address_roundtrip_witness :
    (∃ w, (GenShellCodeHelper.init true).pack_address 258 = some w ∧
        w.length = 8 ∧ leDecodeSigned w = 258) ∧
    ∃ w, (GenShellCodeHelper.init false).pack_address 258 = some w ∧
        w.length = 4 ∧ (leDecode w : Int) = 258 :=
  ⟨(pack_address_roundtrip (GenShellCodeHelper.init true) 258).1 rfl
      (by norm_num) (by norm_num),
   (pack_address_roundtrip (GenShellCodeHelper.init false) 258).2 rfl
      (by norm_num) (by norm_num)⟩

/-! ### Facts about the generated trampoline -/

/-- Classifies a chunk that is a register save/restore encoding of the
64-bit translation table: `some (isPush, register)`, `none` for any other
chunk.  The byte values are the table's own (`push r` = `0x50`-`0x57`,
`pop r` = `0x58`-`0x5F`). -/
def pushPopTag64 : List Nat → Option (Bool × String)
  | [b] =>
    if b = 0x56 then some (true, "rsi")
    else if b = 0x50 then some (true, "rax")
    else if b = 0x55 then some (true, "rbp")
    else if b = 0x53 then some (true, "rbx")
    else if b = 0x54 then some (true, "rsp")
    else if b = 0x57 then some (true, "rdi")
    else if b = 0x5E then some (false, "rsi")
    else if b = 0x58 then some (false, "rax")
    else if b = 0x5D then some (false, "rbp")
    else if b = 0x5B then some (false, "rbx")
    else if b = 0x5C then some (false, "rsp")
    else if b = 0x5F then some (false, "rdi")
    else none
  | _ => none

/-- Same classification against the 32-bit table's save/restore encodings. -/
def pushPopTag32 : List Nat → Option (Bool × String)
  | [b] =>
    if b = 0x56 then some (true, "esi")
    else if b = 0x50 then some (true, "eax")
    else if b = 0x55 then some (true, "ebp")
    else if b = 0x53 then some (true, "ebx")
    else if b = 0x5E then some (false, "esi")
    else if b = 0x58 then some (false, "eax")
    else if b = 0x5D then some (false, "ebp")
    else if b = 0x5B then some (false, "ebx")
    else none
  | _ => none

/-- The tags agree with the translation tables: for every register of the
64-bit table, the `push`/`pop` encodings are classified back to that
register. -/
theorem pushPopTag64_matches_table :
    ∀ r ∈ ["rsi", "rax", "rbp", "rbx", "rsp", "rdi"],
      (∃ w, translations64.lookup ("push " ++ r) = some w ∧ pushPopTag64 w = some (true, r)) ∧
      (∃ w, translations64.lookup ("pop " ++ r) = some w ∧ pushPopTag64 w = some (false, r)) := by
  decide

/-- The tags agree with the 32-bit table as well. -/
theorem pushPopTag32_matches_table :
    ∀ r ∈ ["esi", "eax", "ebp", "ebx"],
      (∃ w, translations32.lookup ("push " ++ r) = some w ∧ pushPopTag32 w = some (true, r)) ∧
      (∃ w, translations32.lookup ("pop " ++ r) = some w ∧ pushPopTag32 w = some (false, r)) := by
  decide

theorem pushPopTag64_length {w : List Nat} {x : Bool × String}
    (h : pushPopTag64 w = some x) : w.length = 1 := by
  match w with
  | [] => simp [pushPopTag64] at h
  | [b] => rfl
  | b :: c :: rest => simp [pushPopTag64] at h

theorem pushPopTag32_length {w : List Nat} {x : Bool × String}
    (h : pushPopTag32 w = some x) : w.length = 1 := by
  match w with
  | [] => simp [pushPopTag32] at h
  | [b] => rfl
  | b :: c :: rest => simp [pushPopTag32] at h

theorem pushPopTag64_none {w : List Nat} (h : w.length ≠ 1) : pushPopTag64 w = none := by
  cases hw : pushPopTag64 w with
  | none => rfl
  | some x => exact absurd (pushPopTag64_length hw) h

theorem pushPopTag32_none {w : List Nat} (h : w.length ≠ 1) : pushPopTag32 w = none := by
  cases hw : pushPopTag32 w with
  | none => rfl
  | some x => exact absurd (pushPopTag32_length hw) h

/-- The register save/restore sequence splits into the saves followed by
the restores, and the restores name the saved registers in exactly reverse
order. -/
def savesThenRestoresReversed (ops : List (Bool × String)) : Prop :=
  ∃ saves restores, ops = saves ++ restores ∧
    (∀ x ∈ saves, x.1 = true) ∧ (∀ x ∈ restores, x.1 = false) ∧
    restores.map Prod.snd = (saves.map Prod.snd).reverse

/-- The 64-bit trampoline, chunk for chunk, for in-range addresses. -/
theorem buildTrampoline_64_eq (a b f : Int) (ha0 : 0 ≤ a) (ha1 : a < 2 ^ 63)
    (hb0 : 0 ≤ b) (hb1 : b < 2 ^ 63) (hf0 : 0 ≤ f) (hf1 : f < 2 ^ 63) :
    buildTrampoline true a b f =
      some [[0x57], [0x54], [0x55], [0x53], [0x57],
            [0x48, 0xB9], leBytes 8 a.toNat,
            [0x48, 0xBA], leBytes 8 b.toNat,
            [0x48, 0xBB], leBytes 8 f.toNat,
            [0xFF, 0xD3],
            [0x5F], [0x5B], [0x5D], [0x5C], [0x5F], [0xC3]] := by
  simp only [buildTrampoline,
    pack_address_64 (GenShellCodeHelper.init true) a rfl ha0 ha1,
    pack_address_64 (GenShellCodeHelper.init true) b rfl hb0 hb1,
    pack_address_64 (GenShellCodeHelper.init true) f rfl hf0 hf1]
  rfl

/-- The 32-bit trampoline, chunk for chunk, for in-range addresses. -/
theorem buildTrampoline_32_eq (a b f : Int) (ha0 : 0 ≤ a) (ha1 : a < 2 ^ 32)
    (hb0 : 0 ≤ b) (hb1 : b < 2 ^ 32) (hf0 : 0 ≤ f) (hf1 : f < 2 ^ 32) :
    buildTrampoline false a b f =
      some [[0x50], [0x55], [0x53],
            [0x89, 0xE5],
            [0x68], leBytes 4 b.toNat,
            [0x68], leBytes 4 a.toNat,
            [0xBB], leBytes 4 f.toNat,
            [0xFF, 0xD3],
            [0x89, 0xEC],
            [0x5B], [0x5D], [0x58], [0xC3]] := by
  simp only [buildTrampoline,
    pack_address_32 (GenShellCodeHelper.init false) a rfl ha0 ha1,
    pack_address_32 (GenShellCodeHelper.init false) b rfl hb0 hb1,
    pack_address_32 (GenShellCodeHelper.init false) f rfl hf0 hf1]
  rfl

/-- C2: for both word widths the register save/restore operations of the
generated trampoline form a palindrome: 64-bit pushes rdi, rsp, rbp, rbx,
rdi and pops rdi, rbx, rbp, rsp, rdi; 32-bit pushes eax, ebp, ebx and pops
ebx, ebp, eax; every push is paired with exactly one pop of the same
register in reverse order, and the last emitted instruction is `ret`. -/
theorem trampoline_register_palindrome (a b f : Int)
    (ha0 : 0 ≤ a) (ha1 : a < 2 ^ 32) (hb0 : 0 ≤ b) (hb1 : b < 2 ^ 32)
    (hf0 : 0 ≤ f) (hf1 : f < 2 ^ 32) :
    ∃ l64 l32,
      buildTrampoline true a b f = some l64 ∧
      buildTrampoline false a b f = some l32 ∧
      l64.filterMap pushPopTag64 =
        [(true, "rdi"), (true, "rsp"), (true, "rbp"), (true, "rbx"), (true, "rdi"),
         (false, "rdi"), (false, "rbx"), (false, "rbp"), (false, "rsp"), (false, "rdi")] ∧
      l32.filterMap pushPopTag32 =
        [(true, "eax"), (true, "ebp"), (true, "ebx"),
         (false, "ebx"), (false, "ebp"), (false, "eax")] ∧
      savesThenRestoresReversed (l64.filterMap pushPopTag64) ∧
      savesThenRestoresReversed (l32.filterMap pushPopTag32) ∧
      l64.getLast? = some [0xC3] ∧ l32.getLast? = some [0xC3] := by
  refine ⟨_, _, buildTrampoline_64_eq a b f ha0 (by omega) hb0 (by omega) hf0 (by omega),
    buildTrampoline_32_eq a b f ha0 ha1 hb0 hb1 hf0 hf1, rfl, rfl, ?_, ?_, rfl, rfl⟩
  · exact ⟨[(true, "rdi"), (true, "rsp"), (true, "rbp"), (true, "rbx"), (true, "rdi")],
      [(false, "rdi"), (false, "rbx"), (false, "rbp"), (false, "rsp"), (false, "rdi")],
      rfl, by decide, by decide, by decide⟩
  · exact ⟨[(true, "eax"), (true, "ebp"), (true, "ebx")],
      [(false, "ebx"), (false, "ebp"), (false, "eax")],
      rfl, by decide, by decide, by decide⟩

/-- C2 witness: the palindrome facts at the concrete addresses 4096, 8192
and 258. -/
theorem trampoline_register_palindrome_witness :
    ∃ l64 l32,
      buildTrampoline true 4096 8192 258 = some l64 ∧
      buildTrampoline false 4096 8192 258 = some l32 ∧
      l64.filterMap pushPopTag64 =
        [(true, "rdi"), (true, "rsp"), (true, "rbp"), (true, "rbx"), (true, "rdi"),
         (false, "rdi"), (false, "rbx"), (false, "rbp"), (false, "rsp"), (false, "rdi")] ∧
      l32.filterMap pushPopTag32 =
        [(true, "eax"), (true, "ebp"), (true, "ebx"),
         (false, "ebx"), (false, "ebp"), (false, "eax")] ∧
      savesThenRestoresReversed (l64.filterMap pushPopTag64) ∧
      savesThenRestoresReversed (l32.filterMap pushPopTag32) ∧
      l64.getLast? = some [0xC3] ∧ l32.getLast? = some [0xC3] :=
  trampoline_register_palindrome 4096 8192 258 (by norm_num) (by norm_num)
    (by norm_num) (by norm_num) (by norm_num) (by norm_num)

/-- C7: the trampoline passes the foreign entry point's two pointer
arguments per the active calling convention.  64-bit: a contiguous block
loads the code-buffer address into rcx (`48 B9 imm64`), the result-buffer
address into rdx (`48 BA imm64`), the entry point into scratch rbx
(`48 BB imm64`) and calls through rbx (`FF D3`).  32-bit: a contiguous
block pushes the result-buffer address first and the code-buffer address
second (`68 imm32` each, reverse order), loads the entry point into ebx
(`BB imm32`) and calls through ebx (`FF D3`).  The surrounding chunks of
each width contain none of the other width's argument-passing encodings. -/
theorem trampoline_argument_convention (a b f : Int)
    (ha0 : 0 ≤ a) (ha1 : a < 2 ^ 32) (hb0 : 0 ≤ b) (hb1 : b < 2 ^ 32)
    (hf0 : 0 ≤ f) (hf1 : f < 2 ^ 32) :
    ∃ pre64 post64 pre32 post32,
      buildTrampoline true a b f =
        some (pre64 ++
          [[0x48, 0xB9], leBytes 8 a.toNat,
           [0x48, 0xBA], leBytes 8 b.toNat,
           [0x48, 0xBB], leBytes 8 f.toNat,
           [0xFF, 0xD3]] ++ post64) ∧
      buildTrampoline false a b f =
        some (pre32 ++
          [[0x68], leBytes 4 b.toNat,
           [0x68], leBytes 4 a.toNat,
           [0xBB], leBytes 4 f.toNat,
           [0xFF, 0xD3]] ++ post32) ∧
      (∀ w ∈ pre64 ++ post64, w ≠ [0x68] ∧ w ≠ [0xBB]) ∧
      (∀ w ∈ pre32 ++ post32, w ≠ [0x48, 0xB9] ∧ w ≠ [0x48, 0xBA] ∧ w ≠ [0x48, 0xBB]) := by
  refine ⟨[[0x57], [0x54], [0x55], [0x53], [0x57]],
    [[0x5F], [0x5B], [0x5D], [0x5C], [0x5F], [0xC3]],
    [[0x50], [0x55], [0x53], [0x89, 0xE5]],
    [[0x89, 0xEC], [0x5B], [0x5D], [0x58], [0xC3]], ?_, ?_, by decide, by decide⟩
  · rw [buildTrampoline_64_eq a b f ha0 (by omega) hb0 (by omega) hf0 (by omega)]
    rfl
  · rw [buildTrampoline_32_eq a b f ha0 ha1 hb0 hb1 hf0 hf1]
    rfl

/-- C7 witness: the argument-passing layout at the concrete addresses
4096, 8192 and 258. -/
theorem trampoline_argument_convention_witness :
    ∃ pre64 post64 pre32 post32,
      buildTrampoline true 4096 8192 258 =
        some (pre64 ++
          [[0x48, 0xB9], leBytes 8 (4096 : Int).toNat,
           [0x48, 0xBA], leBytes 8 (8192 : Int).toNat,
           [0x48, 0xBB], leBytes 8 (258 : Int).toNat,
           [0xFF, 0xD3]] ++ post64) ∧
      buildTrampoline false 4096 8192 258 =
        some (pre32 ++
          [[0x68], leBytes 4 (8192 : Int).toNat,
           [0x68], leBytes 4 (4096 : Int).toNat,
           [0xBB], leBytes 4 (258 : Int).toNat,
           [0xFF, 0xD3]] ++ post32) ∧
      (∀ w ∈ pre64 ++ post64, w ≠ [0x68] ∧ w ≠ [0xBB]) ∧
      (∀ w ∈ pre32 ++ post32, w ≠ [0x48, 0xB9] ∧ w ≠ [0x48, 0xBA] ∧ w ≠ [0x48, 0xBB]) :=
  trampoline_argument_convention 4096 8192 258 (by norm_num) (by norm_num)
    (by norm_num) (by norm_num) (by norm_num) (by norm_num)

/-! ### Facts about the translation tables -/

theorem lookup_eq_none_iff {β : Type} (l : List (String × β)) (c : String) :
    l.lookup c = none ↔ c ∉ l.map Prod.fst := by
  induction l with
  | nil => simp [List.lookup]
  | cons p rest ih =>
    obtain ⟨k, v⟩ := p
    by_cases hk : c = k
    · subst hk
      simp [List.lookup]
    · have hbeq : (c == k) = false := beq_eq_false_iff_ne.mpr hk
      simp [List.lookup, hbeq, ih, hk]

/-- C9: `translate` returns bytes exactly for the keys of the helper's
width-specific table and raises `KeyError` (`none`) for every other
mnemonic; in particular a 64-bit helper has no `push dword` entry and a
32-bit helper has no `mov rcx` / `mov rdx` entry, so a helper built for one
width can never emit an encoding belonging to the other width's profile —
requesting it fails rather than emitting wrong bytes. -/
theorem translate_unsupported_encoding :
    (∀ (h : GenShellCodeHelper) (c : String),
        h.translate c = none ↔ c ∉ h.translations.map Prod.fst) ∧
    (GenShellCodeHelper.init true).translate "push dword" = none ∧
    (GenShellCodeHelper.init false).translate "mov rcx" = none ∧
    (GenShellCodeHelper.init false).translate "mov rdx" = none :=
  ⟨fun h c => lookup_eq_none_iff h.translations c, rfl, rfl, rfl⟩

/-! ### Facts about the symbol-resolution retry loop -/

def isResolveAttempt : Event → Bool
  | Event.resolveAttempt _ _ => true
  | _ => false

def countResolveAttempts (t : List Event) : Nat :=
  (t.filter isResolveAttempt).length

/-- A failed `process.resolve_label` attempt: it raised, or the returned
address was zero and the `assert address` raised. -/
def isFailedAttempt (r : Option Nat) : Prop := r = none ∨ r = some 0

theorem countResolveAttempts_cons (e : Event) (t : List Event) :
    countResolveAttempts (e :: t) =
      (if isResolveAttempt e then 1 else 0) + countResolveAttempts t := by
  simp only [countResolveAttempts, List.filter_cons]
  split <;> simp [Nat.add_comm]

theorem countResolveAttempts_resolveLoop (f : Nat → Option Nat) (label : String)
    (is : List Nat) :
    countResolveAttempts (resolveLoop f label is).1 ≤ is.length := by
  induction is with
  | nil => simp [resolveLoop, countResolveAttempts]
  | cons i rest ih =>
    unfold resolveLoop
    cases hf : f i with
    | some a =>
      by_cases ha : a = 0
      · by_cases hi : i = 2
        · simp [hi, ha, countResolveAttempts_cons, isResolveAttempt, countResolveAttempts]
        · simp [hi, ha, countResolveAttempts_cons, isResolveAttempt]
          omega
      · simp [ha, countResolveAttempts_cons, isResolveAttempt, countResolveAttempts]
    | none =>
      by_cases hi : i = 2
      · simp [hi, countResolveAttempts_cons, isResolveAttempt, countResolveAttempts]
      · simp [hi, countResolveAttempts_cons, isResolveAttempt]
        omega

theorem resolve_label_first_ok (f : Nat → Option Nat) (label : String) (a : Nat)
    (hf : f 0 = some a) (ha : a ≠ 0) :
    resolve_label f label = ([Event.resolveAttempt label 0], some a) := by
  simp [resolve_label, resolveLoop, hf, ha]

theorem resolve_label_all_fail (f : Nat → Option Nat) (label : String)
    (h0 : isFailedAttempt (f 0)) (h1 : isFailedAttempt (f 1))
    (h2 : isFailedAttempt (f 2)) :
    resolve_label f label =
      ([Event.resolveAttempt label 0, Event.scanModules, Event.sleep 2,
        Event.resolveAttempt label 1, Event.scanModules, Event.sleep 2,
        Event.resolveAttempt label 2, Event.scanModules], none) := by
  rcases h0 with h0 | h0 <;> rcases h1 with h1 | h1 <;> rcases h2 with h2 | h2 <;>
    simp [resolve_label, resolveLoop, h0, h1, h2]

/-- C6: `resolve_label` attempts the lookup at most 3 times; a lookup that
fails twice and succeeds on the third attempt rescans and sleeps 2 seconds
after each of the two failed attempts and returns the resolved non-zero
address; a lookup that fails on all three attempts propagates the final
error (`none`); in the driver that propagation happens before any foreign
memory allocation. -/
theorem resolve_label_retry_policy :
    (∀ (f : Nat → Option Nat) (label : String),
        countResolveAttempts (resolve_label f label).1 ≤ 3) ∧
    (∀ (f : Nat → Option Nat) (label : String) (a : Nat),
        isFailedAttempt (f 0) → isFailedAttempt (f 1) → f 2 = some a → a ≠ 0 →
        resolve_label f label =
          ([Event.resolveAttempt label 0, Event.scanModules, Event.sleep 2,
            Event.resolveAttempt label 1, Event.scanModules, Event.sleep 2,
            Event.resolveAttempt label 2], some a)) ∧
    (∀ (f : Nat → Option Nat) (label : String),
        isFailedAttempt (f 0) → isFailedAttempt (f 1) → isFailedAttempt (f 2) →
        (resolve_label f label).2 = none) ∧
    (∀ (env : WinEnv) (pc : List Char) (tracing : Bool),
        '\'' ∉ pc → (env.bits == 64) = env.pythonIs64 →
        (∀ i, isFailedAttempt (env.resolveEnsure i)) →
        (run_python_code_windows env pc tracing).2 = Except.error Err.resolveError ∧
        ∀ s r, Event.malloc s r ∉ (run_python_code_windows env pc tracing).1) := by
  refine ⟨?_, ?_, ?_, ?_⟩
  · intro f label
    exact countResolveAttempts_resolveLoop f label [0, 1, 2]
  · intro f label a h0 h1 h2 ha
    rcases h0 with h0 | h0 <;> rcases h1 with h1 | h1 <;>
      simp [resolve_label, resolveLoop, h0, h1, h2, ha]
  · intro f label h0 h1 h2
    rw [resolve_label_all_fail f label h0 h1 h2]
  · intro env pc tracing hq harch hfail
    have hr := resolve_label_all_fail env.resolveEnsure "PyGILState_Ensure"
      (hfail 0) (hfail 1) (hfail 2)
    constructor
    · simp [run_python_code_windows, hq, harch, hr]
    · intro s r
      simp [run_python_code_windows, hq, harch, hr]

/-! ### Facts about the Windows driver -/

/-- The addresses freed in a trace, in order. -/
def freesIn (t : List Event) : List Nat :=
  t.filterMap fun e => match e with | Event.free a => some a | _ => none

theorem freesIn_resolveLoop (f : Nat → Option Nat) (label : String) (is : List Nat) :
    freesIn (resolveLoop f label is).1 = [] := by
  simp only [freesIn]
  induction is with
  | nil => rfl
  | cons i rest ih =>
    unfold resolveLoop
    cases hf : f i with
    | some a =>
      by_cases ha : a = 0
      · by_cases hi : i = 2 <;> simp [hi, ha, List.filterMap_cons, ih]
      · simp [ha, List.filterMap_cons]
    | none =>
      by_cases hi : i = 2 <;> simp [hi, List.filterMap_cons, ih]

theorem freesIn_resolve_label (f : Nat → Option Nat) (label : String) :
    freesIn (resolve_label f label).1 = [] :=
  freesIn_resolveLoop f label [0, 1, 2]

theorem freesIn_nil : freesIn [] = [] := rfl

theorem freesIn_cons (e : Event) (t : List Event) :
    freesIn (e :: t) =
      (match e with | Event.free a => [a] | _ => []) ++ freesIn t := by
  cases e <;> rfl

theorem freesIn_append (s t : List Event) :
    freesIn (s ++ t) = freesIn s ++ freesIn t := by
  simp [freesIn, List.filterMap_append]

/-- Every failing path of the driver returns without having attempted a
single `process.free`: the frees sit only at the very end of the success
path, with no `try`/`finally` around the body. -/
theorem run_windows_no_free_on_error (env : WinEnv) (pc : List Char) (tracing : Bool)
    (err : Err) (h : (run_python_code_windows env pc tracing).2 = Except.error err) :
    freesIn (run_python_code_windows env pc tracing).1 = [] := by
  by_cases hq : '\'' ∈ pc
  · simp [run_python_code_windows, hq, freesIn_nil]
  by_cases harch : (env.bits == 64) ≠ env.pythonIs64
  · simp [run_python_code_windows, hq, harch, freesIn_cons, freesIn_nil]
  rcases hres : resolve_label env.resolveEnsure "PyGILState_Ensure" with ⟨t1, r1⟩
  have h1 : freesIn t1 = [] := by
    have hE := freesIn_resolve_label env.resolveEnsure "PyGILState_Ensure"
    rw [hres] at hE
    exact hE
  cases r1 with
  | none =>
    simp [run_python_code_windows, hq, harch, hres, freesIn_cons, freesIn_nil,
      freesIn_append, h1]
  | some ensure_addr =>
  by_cases hens : ensure_addr = 0
  · simp [run_python_code_windows, hq, harch, hres, hens, freesIn_cons, freesIn_nil,
      freesIn_append, h1]
  by_cases hd : env.dllExists = true
  case neg =>
    simp [run_python_code_windows, hq, harch, hres, hens, hd, freesIn_cons, freesIn_nil,
      freesIn_append, h1]
  by_cases hid : env.injectDllOk = true
  case neg =>
    simp [run_python_code_windows, hq, harch, hres, hens, hd, hid, freesIn_cons,
      freesIn_nil, freesIn_append, h1]
  by_cases hsc : env.scanOk = true
  case neg =>
    simp [run_python_code_windows, hq, harch, hres, hens, hd, hid, hsc, freesIn_cons,
      freesIn_nil, freesIn_append, h1]
  rcases hres2 : resolve_label env.resolveAttach "AttachAndRunPythonCode" with ⟨t4, r4⟩
  have h4 : freesIn t4 = [] := by
    have hA := freesIn_resolve_label env.resolveAttach "AttachAndRunPythonCode"
    rw [hres2] at hA
    exact hA
  cases r4 with
  | none =>
    simp [run_python_code_windows, hq, harch, hres, hens, hd, hid, hsc, hres2,
      freesIn_cons, freesIn_nil, freesIn_append, h1, h4]
  | some attach_func =>
  by_cases hatt : attach_func = 0
  · simp [run_python_code_windows, hq, harch, hres, hens, hd, hid, hsc, hres2, hatt,
      freesIn_cons, freesIn_nil, freesIn_append, h1, h4]
  cases hmc : env.mallocCode with
  | none =>
    simp [run_python_code_windows, hq, harch, hres, hens, hd, hid, hsc, hres2, hatt,
      hmc, freesIn_cons, freesIn_nil, freesIn_append, h1, h4]
  | some code_address =>
  by_cases hc0 : code_address = 0
  · simp [run_python_code_windows, hq, harch, hres, hens, hd, hid, hsc, hres2, hatt,
      hmc, hc0, freesIn_cons, freesIn_nil, freesIn_append, h1, h4]
  by_cases hw : env.writeOk = true
  case neg =>
    simp [run_python_code_windows, hq, harch, hres, hens, hd, hid, hsc, hres2, hatt,
      hmc, hc0, hw, freesIn_cons, freesIn_nil, freesIn_append, h1, h4]
  cases hmr : env.mallocRet with
  | none =>
    simp [run_python_code_windows, hq, harch, hres, hens, hd, hid, hsc, hres2, hatt,
      hmc, hc0, hw, hmr, freesIn_cons, freesIn_nil, freesIn_append, h1, h4]
  | some return_code_address =>
  by_cases hr0 : return_code_address = 0
  · simp [run_python_code_windows, hq, harch, hres, hens, hd, hid, hsc, hres2, hatt,
      hmc, hc0, hw, hmr, hr0, freesIn_cons, freesIn_nil, freesIn_append, h1, h4]
  by_cases hwi : env.writeIntOk = true
  case neg =>
    simp [run_python_code_windows, hq, harch, hres, hens, hd, hid, hsc, hres2, hatt,
      hmc, hc0, hw, hmr, hr0, hwi, freesIn_cons, freesIn_nil, freesIn_append, h1, h4]
  cases hbt : buildTrampoline (env.bits == 64) code_address return_code_address
      attach_func with
  | none =>
    simp [run_python_code_windows, hq, harch, hres, hens, hd, hid, hsc, hres2, hatt,
      hmc, hc0, hw, hmr, hr0, hwi, hbt, freesIn_cons, freesIn_nil, freesIn_append,
      h1, h4]
  | some tcode =>
  cases hic : env.injectCodeRes with
  | none =>
    simp [run_python_code_windows, hq, harch, hres, hens, hd, hid, hsc, hres2, hatt,
      hmc, hc0, hw, hmr, hr0, hwi, hbt, hic, freesIn_cons, freesIn_nil,
      freesIn_append, h1, h4]
  | some pInjectedMemory =>
  by_cases hwt : env.waitOk = true
  case neg =>
    simp [run_python_code_windows, hq, harch, hres, hens, hd, hid, hsc, hres2, hatt,
      hmc, hc0, hw, hmr, hr0, hwi, hbt, hic, hwt, freesIn_cons, freesIn_nil,
      freesIn_append, h1, h4]
  cases hri : env.readIntRes with
  | none =>
    simp [run_python_code_windows, hq, harch, hres, hens, hd, hid, hsc, hres2, hatt,
      hmc, hc0, hw, hmr, hr0, hwi, hbt, hic, hwt, hri, freesIn_cons, freesIn_nil,
      freesIn_append, h1, h4]
  | some return_code =>
  simp [run_python_code_windows, hq, harch, hres, hens, hd, hid, hsc, hres2, hatt,
    hmc, hc0, hw, hmr, hr0, hwi, hbt, hic, hwt, hri] at h

/-- The full trace and result of a call on which every foreign operation
succeeds at the first try. -/
theorem run_windows_success (env : WinEnv) (pc : List Char) (tracing : Bool)
    (ea fa ca ra pm : Nat) (rc : Int)
    (hq : '\'' ∉ pc) (hb : env.bits = 64) (hp : env.pythonIs64 = true)
    (he : env.resolveEnsure 0 = some ea) (hea : ea ≠ 0)
    (hd : env.dllExists = true) (hdll : env.injectDllOk = true) (hsc : env.scanOk = true)
    (hatt : env.resolveAttach 0 = some fa) (hfa : fa ≠ 0) (hfaR : (fa : Int) < 2 ^ 63)
    (hmc : env.mallocCode = some ca) (hca : ca ≠ 0) (hcaR : (ca : Int) < 2 ^ 63)
    (hw : env.writeOk = true)
    (hmr : env.mallocRet = some ra) (hra : ra ≠ 0) (hraR : (ra : Int) < 2 ^ 63)
    (hwi : env.writeIntOk = true)
    (hic : env.injectCodeRes = some pm)
    (hwt : env.waitOk = true)
    (hri : env.readIntRes = some rc) :
    run_python_code_windows env pc tracing =
      ([Event.openProcess,
        Event.resolveAttempt "PyGILState_Ensure" 0,
        Event.injectDll, Event.scanModules,
        Event.resolveAttempt "AttachAndRunPythonCode" 0,
        Event.malloc pc.length (some ca), Event.write ca,
        Event.malloc 4 (some ra),
        Event.writeInt ra (if tracing then 2 else 0),
        Event.injectCode (some pm), Event.threadWait, Event.readInt ra,
        Event.free pm, Event.free ca, Event.free ra], Except.ok rc) := by
  have hbuild := buildTrampoline_64_eq (ca : Int) (ra : Int) (fa : Int)
    (Int.natCast_nonneg ca) hcaR (Int.natCast_nonneg ra) hraR
    (Int.natCast_nonneg fa) hfaR
  simp [run_python_code_windows, hq, hb, hp, hd, hdll, hsc, hmc, hca, hw, hmr, hra,
    hwi, hic, hwt, hri, hea, hfa, hbuild,
    resolve_label_first_ok env.resolveEnsure "PyGILState_Ensure" ea he hea,
    resolve_label_first_ok env.resolveAttach "AttachAndRunPythonCode" fa hatt hfa]

/-- An environment on which every foreign call succeeds at the first try
(used by the witnesses). -/
def okEnv : WinEnv :=
  ⟨64, true, fun _ => some 11, true, true, true, fun _ => some 12,
   some 4096, true, some 8192, true, some 300, true, some 5⟩

/-- `okEnv` with a 32-bit target: architecture mismatch. -/
def mismatchEnv : WinEnv := { okEnv with bits := 32 }

/-- `okEnv` whose foreign write raises after the first allocation. -/
def writeFailEnv : WinEnv := { okEnv with writeOk := false }

/-- A gdb outcome for the Linux witness. -/
def okLinuxEnv : LinuxEnv := ⟨"", ""⟩

/-- C5: for source code containing a single-quote character, both drivers
fail the precondition assert as their very first action, with an empty
foreign-interaction trace: no process handle opened, no memory allocated,
no subprocess spawned. -/
theorem single_quote_precondition (env : WinEnv) (lenv : LinuxEnv) (pid : Nat)
    (pc : List Char) (tracing : Bool) (hq : '\'' ∈ pc) :
    run_python_code_windows env pc tracing = ([], Except.error Err.assertionError) ∧
    run_python_code_linux lenv pid pc = ([], Except.error Err.assertionError) := by
  constructor
  · simp [run_python_code_windows, hq]
  · simp [run_python_code_linux, hq]

/-- C5 witness: a one-character source consisting of a single quote. -/
theorem single_quote_precondition_witness :
    run_python_code_windows okEnv ['\''] false = ([], Except.error Err.assertionError) ∧
    run_python_code_linux okLinuxEnv 42 ['\''] = ([], Except.error Err.assertionError) :=
  single_quote_precondition okEnv okLinuxEnv 42 ['\''] false (by decide)

/-- C4: when the target's reported word width differs from the injecting
Python's own width, the driver raises the architecture-mismatch error right
after opening the process: the trace holds no allocation, no write, no dll
injection and no thread creation. -/
theorem arch_mismatch_before_alloc (env : WinEnv) (pc : List Char) (tracing : Bool)
    (hq : '\'' ∉ pc) (hmm : (env.bits == 64) ≠ env.pythonIs64) :
    run_python_code_windows env pc tracing =
      ([Event.openProcess], Except.error Err.archMismatch) ∧
    ∀ e ∈ (run_python_code_windows env pc tracing).1,
      (∀ s r, e ≠ Event.malloc s r) ∧ (∀ a, e ≠ Event.write a) ∧
      e ≠ Event.injectDll ∧ (∀ p, e ≠ Event.injectCode p) := by
  have h1 : run_python_code_windows env pc tracing =
      ([Event.openProcess], Except.error Err.archMismatch) := by
    simp [run_python_code_windows, hq, hmm]
  refine ⟨h1, ?_⟩
  rw [h1]
  intro e he
  simp only [List.mem_singleton] at he
  subst he
  refine ⟨fun s r => ?_, fun a => ?_, ?_, fun p => ?_⟩ <;> simp

/-- C4 witness: a 32-bit target with a 64-bit injector. -/
theorem arch_mismatch_before_alloc_witness :
    run_python_code_windows mismatchEnv ['a'] false =
      ([Event.openProcess], Except.error Err.archMismatch) ∧
    ∀ e ∈ (run_python_code_windows mismatchEnv ['a'] false).1,
      (∀ s r, e ≠ Event.malloc s r) ∧ (∀ a, e ≠ Event.write a) ∧
      e ≠ Event.injectDll ∧ (∀ p, e ≠ Event.injectCode p) :=
  arch_mismatch_before_alloc mismatchEnv ['a'] false (by decide) (by decide)

/-- C8: the driver writes exactly `2` into the result buffer when debugger
tracing is requested and exactly `0` otherwise; that flag write and the
code-buffer write both happen before the trampoline thread is injected, and
the result buffer is read back only after the thread has been waited on. -/
theorem flag_write_ordering (env : WinEnv) (pc : List Char) (tracing : Bool)
    (ea fa ca ra pm : Nat) (rc : Int)
    (hq : '\'' ∉ pc) (hb : env.bits = 64) (hp : env.pythonIs64 = true)
    (he : env.resolveEnsure 0 = some ea) (hea : ea ≠ 0)
    (hd : env.dllExists = true) (hdll : env.injectDllOk = true) (hsc : env.scanOk = true)
    (hatt : env.resolveAttach 0 = some fa) (hfa : fa ≠ 0) (hfaR : (fa : Int) < 2 ^ 63)
    (hmc : env.mallocCode = some ca) (hca : ca ≠ 0) (hcaR : (ca : Int) < 2 ^ 63)
    (hw : env.writeOk = true)
    (hmr : env.mallocRet = some ra) (hra : ra ≠ 0) (hraR : (ra : Int) < 2 ^ 63)
    (hwi : env.writeIntOk = true)
    (hic : env.injectCodeRes = some pm)
    (hwt : env.waitOk = true)
    (hri : env.readIntRes = some rc) :
    ∃ before mid after,
      (run_python_code_windows env pc tracing).1 =
        before ++ [Event.injectCode (some pm)] ++ mid ++ [Event.threadWait] ++ after ∧
      Event.write ca ∈ before ∧
      Event.writeInt ra (if tracing then 2 else 0) ∈ before ∧
      (∀ a v, Event.writeInt a v ∈ before → a = ra ∧ v = (if tracing then 2 else 0)) ∧
      (∀ a, Event.readInt a ∉ before ++ mid) ∧
      Event.readInt ra ∈ after := by
  rw [run_windows_success env pc tracing ea fa ca ra pm rc hq hb hp he hea hd hdll hsc
    hatt hfa hfaR hmc hca hcaR hw hmr hra hraR hwi hic hwt hri]
  refine ⟨[Event.openProcess, Event.resolveAttempt "PyGILState_Ensure" 0,
    Event.injectDll, Event.scanModules, Event.resolveAttempt "AttachAndRunPythonCode" 0,
    Event.malloc pc.length (some ca), Event.write ca, Event.malloc 4 (some ra),
    Event.writeInt ra (if tracing then 2 else 0)], [],
    [Event.readInt ra, Event.free pm, Event.free ca, Event.free ra],
    rfl, by simp, by simp, ?_, ?_, by simp⟩
  · intro a v hv
    simp at hv
    exact hv
  · intro a
    simp

/-- C8 witness: `okEnv` with tracing requested — the flag written is 2. -/
theorem flag_write_ordering_witness :
    ∃ before mid after,
      (run_python_code_windows okEnv ['a'] true).1 =
        before ++ [Event.injectCode (some 300)] ++ mid ++ [Event.threadWait] ++ after ∧
      Event.write 4096 ∈ before ∧
      Event.writeInt 8192 (if true then 2 else 0) ∈ before ∧
      (∀ a v, Event.writeInt a v ∈ before → a = 8192 ∧ v = (if true then 2 else 0)) ∧
      (∀ a, Event.readInt a ∉ before ++ mid) ∧
      Event.readInt 8192 ∈ after :=
  flag_write_ordering okEnv ['a'] true 11 12 4096 8192 300 5 (by decide)
    rfl rfl rfl (by decide) rfl rfl rfl rfl (by decide) (by norm_num) rfl (by decide)
    (by norm_num) rfl rfl (by decide) (by norm_num) rfl rfl rfl rfl

/-- C1 fails as stated: on `writeFailEnv` the foreign write raises after
the code buffer was already allocated, and the driver propagates the error
without attempting a single `free` — the already-acquired foreign memory is
leaked. -/
theorem run_windows_write_failure_leaks :
    (run_python_code_windows writeFailEnv ['a'] false).2 = Except.error Err.apiError ∧
    Event.malloc 1 (some 4096) ∈ (run_python_code_windows writeFailEnv ['a'] false).1 ∧
    freesIn (run_python_code_windows writeFailEnv ['a'] false).1 = [] :=
  ⟨rfl, by decide, rfl⟩

/-- C1 (amended): on a fully successful call all three foreign regions (the
injected trampoline's backing memory, the code buffer and the result
buffer) are freed before returning, and every allocation observed in the
trace has a matching free; but on every failing call the driver attempts no
free at all before the error propagates — the claim's "release is still
attempted on failure" does not hold, see the counterexample. -/
theorem run_windows_frees_on_success_only (env : WinEnv) (pc : List Char) (tracing : Bool)
    (ea fa ca ra pm : Nat) (rc : Int)
    (hq : '\'' ∉ pc) (hb : env.bits = 64) (hp : env.pythonIs64 = true)
    (he : env.resolveEnsure 0 = some ea) (hea : ea ≠ 0)
    (hd : env.dllExists = true) (hdll : env.injectDllOk = true) (hsc : env.scanOk = true)
    (hatt : env.resolveAttach 0 = some fa) (hfa : fa ≠ 0) (hfaR : (fa : Int) < 2 ^ 63)
    (hmc : env.mallocCode = some ca) (hca : ca ≠ 0) (hcaR : (ca : Int) < 2 ^ 63)
    (hw : env.writeOk = true)
    (hmr : env.mallocRet = some ra) (hra : ra ≠ 0) (hraR : (ra : Int) < 2 ^ 63)
    (hwi : env.writeIntOk = true)
    (hic : env.injectCodeRes = some pm)
    (hwt : env.waitOk = true)
    (hri : env.readIntRes = some rc) :
    (run_python_code_windows env pc tracing).2 = Except.ok rc ∧
    freesIn (run_python_code_windows env pc tracing).1 = [pm, ca, ra] ∧
    (∀ s a, Event.malloc s (some a) ∈ (run_python_code_windows env pc tracing).1 →
        a ∈ freesIn (run_python_code_windows env pc tracing).1) ∧
    (∀ p, Event.injectCode (some p) ∈ (run_python_code_windows env pc tracing).1 →
        p ∈ freesIn (run_python_code_windows env pc tracing).1) ∧
    (∀ (env2 : WinEnv) (pc2 : List Char) (tr2 : Bool) (err : Err),
        (run_python_code_windows env2 pc2 tr2).2 = Except.error err →
        freesIn (run_python_code_windows env2 pc2 tr2).1 = []) := by
  rw [run_windows_success env pc tracing ea fa ca ra pm rc hq hb hp he hea hd hdll hsc
    hatt hfa hfaR hmc hca hcaR hw hmr hra hraR hwi hic hwt hri]
  refine ⟨rfl, rfl, ?_, ?_,
    fun env2 pc2 tr2 err h => run_windows_no_free_on_error env2 pc2 tr2 err h⟩
  · intro s a ha
    simp at ha
    rcases ha with ⟨_, ha⟩ | ⟨_, ha⟩ <;> subst ha <;> simp [freesIn]
  · intro p hp2
    simp at hp2
    subst hp2
    simp [freesIn]

/-- C1 witness: the success and failure facts evaluated on `okEnv`. -/
theorem run_windows_frees_on_success_only_witness :
    (run_python_code_windows okEnv ['a'] false).2 = Except.ok 5 ∧
    freesIn (run_python_code_windows okEnv ['a'] false).1 = [300, 4096, 8192] ∧
    (∀ s a, Event.malloc s (some a) ∈ (run_python_code_windows okEnv ['a'] false).1 →
        a ∈ freesIn (run_python_code_windows okEnv ['a'] false).1) ∧
    (∀ p, Event.injectCode (some p) ∈ (run_python_code_windows okEnv ['a'] false).1 →
        p ∈ freesIn (run_python_code_windows okEnv ['a'] false).1) ∧
    (∀ (env2 : WinEnv) (pc2 : List Char) (tr2 : Bool) (err : Err),
        (run_python_code_windows env2 pc2 tr2).2 = Except.error err →
        freesIn (run_python_code_windows env2 pc2 tr2).1 = []) :=
  run_windows_frees_on_success_only okEnv ['a'] false 11 12 4096 8192 300 5 (by decide)
    rfl rfl rfl (by decide) rfl rfl rfl rfl (by decide) (by norm_num) rfl (by decide)
    (by norm_num) rfl rfl (by decide) (by norm_num) rfl rfl rfl rfl

end AttachToProcess
